import Mathlib

/-!
Verification of the rust-mcp server against its specification.

The repository snapshot contains `src/server/handler.rs`: the outer MCP tool
layer (`RustMcpServer` and its ~22 tool handlers).  Each handler serializes its
typed parameters to a JSON argument map, locks the shared analyzer, calls
`execute_tool`, and converts the outcome to a `CallToolResult`.  The analyzer
session core described by the spec (dispatcher, request correlator, session
state) is not part of the snapshot; where a claim depends on it, the relevant
operation is modelled from the spec and marked as such in its doc comment.
-/

namespace RustMcp

/-- A JSON value, mirroring `serde_json::Value` as used in `handler.rs`
(objects as ordered association lists, numbers restricted to integers as the
handlers only pass line/character positions). -/
inductive JsonVal where
  | null
  | bool (b : Bool)
  | num (n : Int)
  | str (s : String)
  | arr (xs : List JsonVal)
  | obj (fields : List (String × JsonVal))
deriving Repr

/-- `Value::get(key)` with a string key: a field lookup on objects, `None` on
every other variant (mirrors `serde_json`'s `Index` impl for `str`). -/
def JsonVal.get (v : JsonVal) (key : String) : Option JsonVal :=
  match v with
  | .obj fields => (fields.find? (fun p => p.1 == key)).map Prod.snd
  | _ => none

/-- `Value::as_str`: `Some` on the string variant only. -/
def JsonVal.as_str (v : JsonVal) : Option String :=
  match v with
  | .str s => some s
  | _ => none

/-- `crate::tools::ToolResult`: the shape returned by `execute_tool`; the
handlers only use its `content` vector of JSON values. -/
structure ToolResult where
  content : List JsonVal
deriving Repr

/-- `rmcp::model::Content` as the handlers build it: only `Content::text`. -/
inductive Content where
  | text (s : String)
deriving Repr, DecidableEq

/-- `rmcp::model::CallToolResult`; `success` sets `isError := false`. -/
structure CallToolResult where
  content : List Content
  isError : Bool
deriving Repr, DecidableEq

/-- `CallToolResult::success`. -/
def CallToolResult.success (c : List Content) : CallToolResult :=
  { content := c, isError := false }

/-- `rmcp::model::ErrorData`: opaque here, the handlers never construct one. -/
inductive McpError where
  | mk
deriving Repr, DecidableEq

/-- The match every tool handler in `handler.rs` performs on the outcome of
`execute_tool`: on `Ok`, return the first content element's `"text"` field as
a string (`"No result"` if it is not a JSON string), or the handler-specific
fallback message when the content is empty or has no `"text"` field; on `Err e`,
return a *successful* `CallToolResult` whose text is `format!("Error: {e}")`.
Errors from `execute_tool` are modelled as their display string. -/
def toolHandlerBody (fallback : String) (r : Except String ToolResult) :
    Except McpError CallToolResult :=
  match r with
  | .ok result =>
      match result.content.head? with
      | some content =>
          match content.get "text" with
          | some text =>
              .ok (CallToolResult.success [Content.text (text.as_str.getD "No result")])
          | none => .ok (CallToolResult.success [Content.text fallback])
      | none => .ok (CallToolResult.success [Content.text fallback])
  | .error e => .ok (CallToolResult.success [Content.text ("Error: " ++ e)])

/-- `RustMcpServer::find_definition` after `execute_tool` returns. -/
def find_definition : Except String ToolResult → Except McpError CallToolResult :=
  toolHandlerBody "No definition found"

/-- `RustMcpServer::find_references` after `execute_tool` returns. -/
def find_references : Except String ToolResult → Except McpError CallToolResult :=
  toolHandlerBody "No references found"

/-- `RustMcpServer::get_diagnostics` after `execute_tool` returns. -/
def get_diagnostics : Except String ToolResult → Except McpError CallToolResult :=
  toolHandlerBody "No diagnostics found"

/-- `RustMcpServer::workspace_symbols` after `execute_tool` returns. -/
def workspace_symbols : Except String ToolResult → Except McpError CallToolResult :=
  toolHandlerBody "No symbols found"

/-- `RustMcpServer::rename_symbol` after `execute_tool` returns. -/
def rename_symbol : Except String ToolResult → Except McpError CallToolResult :=
  toolHandlerBody "Rename operation completed"

/-- `RustMcpServer::format_code` after `execute_tool` returns. -/
def format_code : Except String ToolResult → Except McpError CallToolResult :=
  toolHandlerBody "Format operation completed"

/-- `RustMcpServer::analyze_manifest` after `execute_tool` returns. -/
def analyze_manifest : Except String ToolResult → Except McpError CallToolResult :=
  toolHandlerBody "Analysis completed"

/-- `RustMcpServer::run_cargo_check` after `execute_tool` returns. -/
def run_cargo_check : Except String ToolResult → Except McpError CallToolResult :=
  toolHandlerBody "Cargo check completed"

/-- `RustMcpServer::extract_function` after `execute_tool` returns. -/
def extract_function : Except String ToolResult → Except McpError CallToolResult :=
  toolHandlerBody "Function extracted successfully"

/-- `RustMcpServer::generate_struct` after `execute_tool` returns. -/
def generate_struct : Except String ToolResult → Except McpError CallToolResult :=
  toolHandlerBody "Struct generated successfully"

/-- `RustMcpServer::generate_enum` after `execute_tool` returns. -/
def generate_enum : Except String ToolResult → Except McpError CallToolResult :=
  toolHandlerBody "Enum generated successfully"

/-- `RustMcpServer::generate_trait_impl` after `execute_tool` returns. -/
def generate_trait_impl : Except String ToolResult → Except McpError CallToolResult :=
  toolHandlerBody "Trait implementation generated successfully"

/-- `RustMcpServer::generate_tests` after `execute_tool` returns. -/
def generate_tests : Except String ToolResult → Except McpError CallToolResult :=
  toolHandlerBody "Tests generated successfully"

/-- `RustMcpServer::inline_function` after `execute_tool` returns. -/
def inline_function : Except String ToolResult → Except McpError CallToolResult :=
  toolHandlerBody "Function inlined successfully"

/-- `RustMcpServer::change_signature` after `execute_tool` returns. -/
def change_signature : Except String ToolResult → Except McpError CallToolResult :=
  toolHandlerBody "Signature changed successfully"

/-- `RustMcpServer::organize_imports` after `execute_tool` returns. -/
def organize_imports : Except String ToolResult → Except McpError CallToolResult :=
  toolHandlerBody "Imports organized successfully"

/-- `RustMcpServer::apply_clippy_suggestions` after `execute_tool` returns. -/
def apply_clippy_suggestions : Except String ToolResult → Except McpError CallToolResult :=
  toolHandlerBody "Clippy suggestions applied successfully"

/-- `RustMcpServer::validate_lifetimes` after `execute_tool` returns. -/
def validate_lifetimes : Except String ToolResult → Except McpError CallToolResult :=
  toolHandlerBody "Lifetimes validated successfully"

/-- `RustMcpServer::get_type_hierarchy` after `execute_tool` returns. -/
def get_type_hierarchy : Except String ToolResult → Except McpError CallToolResult :=
  toolHandlerBody "Type hierarchy retrieved successfully"

/-- `RustMcpServer::suggest_dependencies` after `execute_tool` returns. -/
def suggest_dependencies : Except String ToolResult → Except McpError CallToolResult :=
  toolHandlerBody "Dependencies suggested successfully"

/-- `RustMcpServer::create_module` after `execute_tool` returns. -/
def create_module : Except String ToolResult → Except McpError CallToolResult :=
  toolHandlerBody "Module created successfully"

/-- `RustMcpServer::move_items` after `execute_tool` returns. -/
def move_items : Except String ToolResult → Except McpError CallToolResult :=
  toolHandlerBody "Items moved successfully"

/-- Modelled from the spec: the error taxonomy of §7 (the session core that
raises these errors — dispatcher, correlator, supervisor — is not in the
repository snapshot, only the handler layer is). -/
inductive SessionError where
  | ProcessSpawnError
  | SessionTerminated
  | MalformedMessage
  | RequestTimeout
  | UnknownCommand
  | InvalidArguments
  | DuplicateCommand
  | AnalyzerReportedError
deriving Repr, DecidableEq

/-- Modelled from the spec: an argument's declared type in a command
descriptor's schema (§3, Command Descriptor). -/
inductive ArgType where
  | str
  | num
  | bool
deriving Repr, DecidableEq

/-- Modelled from the spec: one required field of an argument schema. -/
structure ArgField where
  name : String
  ty : ArgType
deriving Repr, DecidableEq

/-- Modelled from the spec: one wire request (identifier + method +
parameters, §6 process boundary). -/
structure ProtocolRequest where
  id : Nat
  method : String
  params : JsonVal
deriving Repr

/-- Modelled from the spec: a Command Descriptor (§3): unique name, argument
schema, request-builder and result-extractor; the two functions are abstract
since the concrete commands are not in the snapshot. -/
structure CommandDescriptor where
  name : String
  required : List ArgField
  buildRequests : List (String × JsonVal) → List ProtocolRequest
  extract : List (String × JsonVal) → Except SessionError JsonVal

/-- Does the supplied JSON value match the declared argument type? -/
def typeMatches : ArgType → JsonVal → Bool
  | .str, .str _ => true
  | .num, .num _ => true
  | .bool, .bool _ => true
  | _, _ => false

/-- Is one required field present in the argument map with a matching type? -/
def argSatisfied (args : List (String × JsonVal)) (f : ArgField) : Bool :=
  match args.find? (fun p => p.1 == f.name) with
  | some p => typeMatches f.ty p.2
  | none => false

/-- Modelled from the spec: schema validation of `execute` (§4.5) — every
required field must be present with the declared type. -/
def validateArgs (required : List ArgField) (args : List (String × JsonVal)) : Bool :=
  required.all (fun f => argSatisfied args f)

/-- Modelled from the spec: `execute(name, args)` of the Command Registry and
Dispatcher (§4.5), which is not in the repository snapshot (the handlers call
it as `crate::tools::execute_tool`).  It resolves `name` in the registry
(`UnknownCommand` when absent), validates `args` against the schema
(`InvalidArguments` on failure), and only then builds and sends protocol
requests.  The second component of the result is the list of requests written
to the process's input stream during the call. -/
def executeModel (registry : List CommandDescriptor) (name : String)
    (args : List (String × JsonVal)) :
    Except SessionError JsonVal × List ProtocolRequest :=
  match registry.find? (fun d => d.name == name) with
  | none => (Except.error SessionError.UnknownCommand, [])
  | some d =>
      if validateArgs d.required args then (d.extract args, d.buildRequests args)
      else (Except.error SessionError.InvalidArguments, [])

/-- Modelled from the spec: a Pending Request (§3) as the correlator keys it —
the command that created it (the result slot is the `delivered` list of the
correlator). -/
structure PendingSlot where
  command : String
deriving Repr, DecidableEq

/-- Modelled from the spec: the Request Correlator (§4.3): next fresh
identifier, the pending map, and the results already delivered to waiters
(each pending slot is fulfilled at most once, so a delivered entry is never
overwritten). -/
structure Correlator where
  nextId : Nat
  pending : List (Nat × PendingSlot)
  delivered : List (Nat × Except SessionError JsonVal)

/-- Modelled from the spec: `resolve(id, result)` (§4.3) — if `id` is pending,
remove the slot and deliver the result; a resolution for an identifier that is
no longer pending is a protocol violation, logged and ignored. -/
def resolveReq (st : Correlator) (id : Nat) (r : JsonVal) : Correlator :=
  match st.pending.find? (fun p => p.1 == id) with
  | some _ =>
      { st with pending := st.pending.filter (fun p => p.1 != id)
              , delivered := st.delivered ++ [(id, Except.ok r)] }
  | none => st

/-- Modelled from the spec: `reject(id, error)` (§4.3), symmetric to
`resolveReq`. -/
def rejectReq (st : Correlator) (id : Nat) (e : SessionError) : Correlator :=
  match st.pending.find? (fun p => p.1 == id) with
  | some _ =>
      { st with pending := st.pending.filter (fun p => p.1 != id)
              , delivered := st.delivered ++ [(id, Except.error e)] }
  | none => st

/-- Modelled from the spec: the message-reading loop dispatching one decoded
Response (identifier + result-or-error, §5/§4.2) to the correlator. -/
def handleResponse (st : Correlator) (id : Nat)
    (r : Except SessionError JsonVal) : Correlator :=
  match r with
  | .ok v => resolveReq st id v
  | .error e => rejectReq st id e

/-- Modelled from the spec: the Session's initialization status (§3). -/
inductive InitStatus where
  | NotStarted
  | Initializing
  | Ready
  | Failed
deriving Repr, DecidableEq

/-- Modelled from the spec: the Session (§3) restricted to what the lifecycle
claims need — initialization status and the correlator it owns. -/
structure SessionModel where
  status : InitStatus
  correlator : Correlator

/-- Modelled from the spec: unexpected process exit (§4.1 side effect): every
pending request is failed with `SessionTerminated` and the Session transitions
to `Failed`. -/
def onProcessExit (s : SessionModel) : SessionModel :=
  { status := InitStatus.Failed
  , correlator :=
      { nextId := s.correlator.nextId
      , pending := []
      , delivered := s.correlator.delivered ++
          s.correlator.pending.map
            (fun p => (p.1, Except.error SessionError.SessionTerminated)) } }

/-- Modelled from the spec: submitting a command to a Session (§7):
`SessionTerminated` fails all subsequently submitted commands while the
Session is `Failed`; otherwise the command is dispatched via `execute`. -/
def submitCommand (registry : List CommandDescriptor) (s : SessionModel)
    (name : String) (args : List (String × JsonVal)) :
    (Except SessionError JsonVal × List ProtocolRequest) × SessionModel :=
  match s.status with
  | InitStatus.Failed => ((Except.error SessionError.SessionTerminated, []), s)
  | _ => (executeModel registry name args, s)

/-- Modelled from the spec: an explicit restart (§7) brings the Session back
to a working state with a fresh correlator. -/
def restartSession (_s : SessionModel) : SessionModel :=
  { status := InitStatus.Ready
  , correlator := { nextId := 0, pending := [], delivered := [] } }

/-- Modelled from the spec: `diagnosticsFor(path)` (§4.4) over the per-document
diagnostics cache — the latest cached diagnostics, or an empty result (not an
error) if none have arrived yet.  A diagnostic entry is kept abstract as its
JSON payload. -/
def diagnosticsFor (cache : List (String × List JsonVal)) (path : String) :
    Except SessionError (List JsonVal) :=
  Except.ok (((cache.find? (fun p => p.1 == path)).map Prod.snd).getD [])

/-- Modelled from the spec: a document-lifecycle notification sent to the
analyzer (§4.4): "document opened" with initial content, or "document changed"
with the new content. -/
inductive DocNotification where
  | opened (path content : String)
  | changed (path content : String)
deriving Repr, DecidableEq

/-- Modelled from the spec: `ensureOpen(path)` (§4.4) over the open-document
table (path ↦ last-observed content).  Opens the document (sending "document
opened") if not already open; if open but the on-disk content differs from the
last observed content, sends "document changed" with the new content; sends
nothing otherwise.  Returns the updated table and the notifications sent. -/
def ensureOpen (docs : List (String × String)) (path : String)
    (diskContent : String) : List (String × String) × List DocNotification :=
  match docs.find? (fun p => p.1 == path) with
  | none => ((path, diskContent) :: docs, [DocNotification.opened path diskContent])
  | some q =>
      if q.2 == diskContent then (docs, [])
      else (docs.map (fun p => if p.1 == path then (path, diskContent) else p),
            [DocNotification.changed path diskContent])

/-- The number of "document opened" notifications in a list. -/
def countOpened (ns : List DocNotification) : Nat :=
  (ns.filter (fun n => match n with
    | DocNotification.opened _ _ => true
    | _ => false)).length

/-- Every tool handler outcome is the `Ok` variant: the match in
`toolHandlerBody` returns `Except.ok` in all four branches. -/
theorem toolHandlerBody_ne_error (fb : String) (r : Except String ToolResult)
    (err : McpError) : toolHandlerBody fb r ≠ Except.error err := by
  unfold toolHandlerBody
  cases r with
  | error e => simp
  | ok result =>
      cases hh : result.content.head? with
      | none => simp [hh]
      | some c =>
          cases hg : c.get "text" with
          | none => simp [hh, hg]
          | some t => simp [hh, hg]

/-- Claim C2: for every registered tool handler of `RustMcpServer`, when
`execute_tool` returns an error the handler returns a *successful*
`CallToolResult` whose single text content is `"Error: <message>"`, and no
tool handler ever returns the `Err` variant of
`Result<CallToolResult, McpError>`, for any outcome of `execute_tool`. -/
theorem tool_error_surfaced_as_text (e : String) (r : Except String ToolResult)
    (err : McpError) :
    (find_definition (Except.error e)
        = Except.ok (CallToolResult.success [Content.text ("Error: " ++ e)])
      ∧ find_definition r ≠ Except.error err)
  ∧ (find_references (Except.error e)
        = Except.ok (CallToolResult.success [Content.text ("Error: " ++ e)])
      ∧ find_references r ≠ Except.error err)
  ∧ (get_diagnostics (Except.error e)
        = Except.ok (CallToolResult.success [Content.text ("Error: " ++ e)])
      ∧ get_diagnostics r ≠ Except.error err)
  ∧ (workspace_symbols (Except.error e)
        = Except.ok (CallToolResult.success [Content.text ("Error: " ++ e)])
      ∧ workspace_symbols r ≠ Except.error err)
  ∧ (rename_symbol (Except.error e)
        = Except.ok (CallToolResult.success [Content.text ("Error: " ++ e)])
      ∧ rename_symbol r ≠ Except.error err)
  ∧ (format_code (Except.error e)
        = Except.ok (CallToolResult.success [Content.text ("Error: " ++ e)])
      ∧ format_code r ≠ Except.error err)
  ∧ (analyze_manifest (Except.error e)
        = Except.ok (CallToolResult.success [Content.text ("Error: " ++ e)])
      ∧ analyze_manifest r ≠ Except.error err)
  ∧ (run_cargo_check (Except.error e)
        = Except.ok (CallToolResult.success [Content.text ("Error: " ++ e)])
      ∧ run_cargo_check r ≠ Except.error err)
  ∧ (extract_function (Except.error e)
        = Except.ok (CallToolResult.success [Content.text ("Error: " ++ e)])
      ∧ extract_function r ≠ Except.error err)
  ∧ (generate_struct (Except.error e)
        = Except.ok (CallToolResult.success [Content.text ("Error: " ++ e)])
      ∧ generate_struct r ≠ Except.error err)
  ∧ (generate_enum (Except.error e)
        = Except.ok (CallToolResult.success [Content.text ("Error: " ++ e)])
      ∧ generate_enum r ≠ Except.error err)
  ∧ (generate_trait_impl (Except.error e)
        = Except.ok (CallToolResult.success [Content.text ("Error: " ++ e)])
      ∧ generate_trait_impl r ≠ Except.error err)
  ∧ (generate_tests (Except.error e)
        = Except.ok (CallToolResult.success [Content.text ("Error: " ++ e)])
      ∧ generate_tests r ≠ Except.error err)
  ∧ (inline_function (Except.error e)
        = Except.ok (CallToolResult.success [Content.text ("Error: " ++ e)])
      ∧ inline_function r ≠ Except.error err)
  ∧ (change_signature (Except.error e)
        = Except.ok (CallToolResult.success [Content.text ("Error: " ++ e)])
      ∧ change_signature r ≠ Except.error err)
  ∧ (organize_imports (Except.error e)
        = Except.ok (CallToolResult.success [Content.text ("Error: " ++ e)])
      ∧ organize_imports r ≠ Except.error err)
  ∧ (apply_clippy_suggestions (Except.error e)
        = Except.ok (CallToolResult.success [Content.text ("Error: " ++ e)])
      ∧ apply_clippy_suggestions r ≠ Except.error err)
  ∧ (validate_lifetimes (Except.error e)
        = Except.ok (CallToolResult.success [Content.text ("Error: " ++ e)])
      ∧ validate_lifetimes r ≠ Except.error err)
  ∧ (get_type_hierarchy (Except.error e)
        = Except.ok (CallToolResult.success [Content.text ("Error: " ++ e)])
      ∧ get_type_hierarchy r ≠ Except.error err)
  ∧ (suggest_dependencies (Except.error e)
        = Except.ok (CallToolResult.success [Content.text ("Error: " ++ e)])
      ∧ suggest_dependencies r ≠ Except.error err)
  ∧ (create_module (Except.error e)
        = Except.ok (CallToolResult.success [Content.text ("Error: " ++ e)])
      ∧ create_module r ≠ Except.error err)
  ∧ (move_items (Except.error e)
        = Except.ok (CallToolResult.success [Content.text ("Error: " ++ e)])
      ∧ move_items r ≠ Except.error err) :=
  ⟨⟨rfl, toolHandlerBody_ne_error _ r err⟩, ⟨rfl, toolHandlerBody_ne_error _ r err⟩,
   ⟨rfl, toolHandlerBody_ne_error _ r err⟩, ⟨rfl, toolHandlerBody_ne_error _ r err⟩,
   ⟨rfl, toolHandlerBody_ne_error _ r err⟩, ⟨rfl, toolHandlerBody_ne_error _ r err⟩,
   ⟨rfl, toolHandlerBody_ne_error _ r err⟩, ⟨rfl, toolHandlerBody_ne_error _ r err⟩,
   ⟨rfl, toolHandlerBody_ne_error _ r err⟩, ⟨rfl, toolHandlerBody_ne_error _ r err⟩,
   ⟨rfl, toolHandlerBody_ne_error _ r err⟩, ⟨rfl, toolHandlerBody_ne_error _ r err⟩,
   ⟨rfl, toolHandlerBody_ne_error _ r err⟩, ⟨rfl, toolHandlerBody_ne_error _ r err⟩,
   ⟨rfl, toolHandlerBody_ne_error _ r err⟩, ⟨rfl, toolHandlerBody_ne_error _ r err⟩,
   ⟨rfl, toolHandlerBody_ne_error _ r err⟩, ⟨rfl, toolHandlerBody_ne_error _ r err⟩,
   ⟨rfl, toolHandlerBody_ne_error _ r err⟩, ⟨rfl, toolHandlerBody_ne_error _ r err⟩,
   ⟨rfl, toolHandlerBody_ne_error _ r err⟩, ⟨rfl, toolHandlerBody_ne_error _ r err⟩⟩

/-- Claim C10: on a successful `execute_tool` outcome every handler returns
exactly one text content: the string value of the first content element's
`"text"` field when it is a JSON string; `"No result"` when the `"text"`
field exists but is not a string; and the handler's fixed fallback message
when the content list is empty or its first element has no `"text"` field.
The cited handlers are instances of the shared body at their fallbacks. -/
theorem handler_ok_text_selection (result : ToolResult) (fb : String) :
    (∀ c s, result.content.head? = some c → c.get "text" = some (JsonVal.str s) →
        toolHandlerBody fb (Except.ok result)
          = Except.ok (CallToolResult.success [Content.text s]))
  ∧ (∀ c t, result.content.head? = some c → c.get "text" = some t →
        t.as_str = none →
        toolHandlerBody fb (Except.ok result)
          = Except.ok (CallToolResult.success [Content.text "No result"]))
  ∧ (result.content.head? = none →
        toolHandlerBody fb (Except.ok result)
          = Except.ok (CallToolResult.success [Content.text fb]))
  ∧ (∀ c, result.content.head? = some c → c.get "text" = none →
        toolHandlerBody fb (Except.ok result)
          = Except.ok (CallToolResult.success [Content.text fb]))
  ∧ find_definition = toolHandlerBody "No definition found"
  ∧ get_diagnostics = toolHandlerBody "No diagnostics found"
  ∧ rename_symbol = toolHandlerBody "Rename operation completed" := by
  refine ⟨?_, ?_, ?_, ?_, rfl, rfl, rfl⟩
  · intro c s hh hg
    unfold toolHandlerBody
    simp [hh, hg, JsonVal.as_str]
  · intro c t hh hg ht
    unfold toolHandlerBody
    simp [hh, hg, ht]
  · intro hh
    unfold toolHandlerBody
    simp [hh]
  · intro c hh hg
    unfold toolHandlerBody
    simp [hh, hg]

/-- Witness for C10: the first branch at a concrete successful result whose
first content element carries a string `"text"` field. -/
theorem handler_ok_text_selection_witness :
    toolHandlerBody "No definition found"
        (Except.ok ⟨[JsonVal.obj [("text", JsonVal.str "src/lib.rs:3:0")]]⟩)
      = Except.ok (CallToolResult.success [Content.text "src/lib.rs:3:0"]) :=
  (handler_ok_text_selection ⟨[JsonVal.obj [("text", JsonVal.str "src/lib.rs:3:0")]]⟩
      "No definition found").1
    (JsonVal.obj [("text", JsonVal.str "src/lib.rs:3:0")]) "src/lib.rs:3:0" rfl rfl

/-- A concrete registry entry used to instantiate the dispatcher claims: the
`find_definition` command with its three required arguments. -/
def findDefinitionDescriptor : CommandDescriptor :=
  { name := "find_definition"
  , required := [⟨"file_path", ArgType.str⟩, ⟨"line", ArgType.num⟩,
                 ⟨"character", ArgType.num⟩]
  , buildRequests := fun args => [⟨0, "textDocument/definition", JsonVal.obj args⟩]
  , extract := fun _ => Except.ok JsonVal.null }

/-- Claim C3: `execute(name, args)` on a command name that is not in the
registry returns `UnknownCommand` and writes no protocol request to the
process's input stream. -/
theorem execute_unknown_no_io (registry : List CommandDescriptor)
    (name : String) (args : List (String × JsonVal))
    (h : registry.find? (fun d => d.name == name) = none) :
    executeModel registry name args
      = (Except.error SessionError.UnknownCommand, []) := by
  unfold executeModel
  rw [h]

/-- Witness for C3: a registry holding only `find_definition`, queried with an
unregistered name. -/
theorem execute_unknown_no_io_witness :
    executeModel [findDefinitionDescriptor] "no_such_tool" []
      = (Except.error SessionError.UnknownCommand, []) :=
  execute_unknown_no_io [findDefinitionDescriptor] "no_such_tool" [] rfl

/-- Claim C4: `execute(name, args)` on a registered command whose argument map
fails the schema on some required field (missing or wrong-typed) returns
`InvalidArguments` and performs no process I/O: no protocol request is built
or sent. -/
theorem execute_invalid_args_no_io (registry : List CommandDescriptor)
    (name : String) (args : List (String × JsonVal)) (d : CommandDescriptor)
    (f : ArgField)
    (hfind : registry.find? (fun d2 => d2.name == name) = some d)
    (hf : f ∈ d.required)
    (hbad : argSatisfied args f = false) :
    executeModel registry name args
      = (Except.error SessionError.InvalidArguments, []) := by
  unfold executeModel
  rw [hfind]
  have hv : validateArgs d.required args = false := by
    cases hall : validateArgs d.required args with
    | false => rfl
    | true =>
        exfalso
        have h2 := List.all_eq_true.mp hall f hf
        rw [hbad] at h2
        exact Bool.false_ne_true h2
  simp [hv]

/-- Witness for C4: `find_definition` invoked with an empty argument map,
missing the required `file_path` field. -/
theorem execute_invalid_args_no_io_witness :
    executeModel [findDefinitionDescriptor] "find_definition" []
      = (Except.error SessionError.InvalidArguments, []) :=
  execute_invalid_args_no_io [findDefinitionDescriptor] "find_definition" []
    findDefinitionDescriptor ⟨"file_path", ArgType.str⟩ rfl
    (by simp [findDefinitionDescriptor]) rfl

/-- After filtering out every entry keyed by `id`, a search for `id` finds
nothing. -/
theorem find?_filter_ne_none (l : List (Nat × PendingSlot)) (id : Nat) :
    (l.filter (fun p => p.1 != id)).find? (fun p => p.1 == id) = none := by
  rw [List.find?_eq_none]
  intro x hx
  have hkeep := (List.mem_filter.mp hx).2
  simp only [bne_iff_ne, ne_eq] at hkeep
  simp [hkeep]

/-- `resolve` on an identifier with no pending slot is ignored: the correlator
state is unchanged. -/
theorem resolveReq_not_pending (st : Correlator) (id : Nat) (r : JsonVal)
    (h : st.pending.find? (fun p => p.1 == id) = none) :
    resolveReq st id r = st := by
  unfold resolveReq
  rw [h]

/-- `reject` on an identifier with no pending slot is ignored: the correlator
state is unchanged. -/
theorem rejectReq_not_pending (st : Correlator) (id : Nat) (e : SessionError)
    (h : st.pending.find? (fun p => p.1 == id) = none) :
    rejectReq st id e = st := by
  unfold rejectReq
  rw [h]

/-- Claim C5: a pending slot is resolved at most once, whether it is first
fulfilled by a response or by a timeout/failure.  When `id` is pending, the
first `resolve(id, r)` removes the slot and delivers the result, and likewise
the first `reject(id, e)` removes the slot and delivers the error; in either
case any later `resolve` or `reject` for the same identifier leaves the whole
correlator — including the already-delivered result — unchanged. -/
theorem pending_slot_single_resolution (st : Correlator) (id : Nat)
    (slot : PendingSlot) (r r2 : JsonVal) (e e2 : SessionError)
    (h : st.pending.find? (fun p => p.1 == id) = some (id, slot)) :
    ((resolveReq st id r).pending.find? (fun p => p.1 == id) = none)
  ∧ ((id, Except.ok r) ∈ (resolveReq st id r).delivered)
  ∧ (resolveReq (resolveReq st id r) id r2 = resolveReq st id r)
  ∧ (rejectReq (resolveReq st id r) id e = resolveReq st id r)
  ∧ ((rejectReq st id e).pending.find? (fun p => p.1 == id) = none)
  ∧ ((id, Except.error e) ∈ (rejectReq st id e).delivered)
  ∧ (resolveReq (rejectReq st id e) id r2 = rejectReq st id e)
  ∧ (rejectReq (rejectReq st id e) id e2 = rejectReq st id e) := by
  have hst1 : resolveReq st id r =
      { st with pending := st.pending.filter (fun p => p.1 != id)
              , delivered := st.delivered ++ [(id, Except.ok r)] } := by
    unfold resolveReq
    rw [h]
  have hst2 : rejectReq st id e =
      { st with pending := st.pending.filter (fun p => p.1 != id)
              , delivered := st.delivered ++ [(id, Except.error e)] } := by
    unfold rejectReq
    rw [h]
  have hnone1 : (resolveReq st id r).pending.find? (fun p => p.1 == id) = none := by
    rw [hst1]
    exact find?_filter_ne_none _ _
  have hnone2 : (rejectReq st id e).pending.find? (fun p => p.1 == id) = none := by
    rw [hst2]
    exact find?_filter_ne_none _ _
  refine ⟨hnone1, ?_, ?_, ?_, hnone2, ?_, ?_, ?_⟩
  · rw [hst1]
    exact List.mem_append_right _ (List.mem_singleton.mpr rfl)
  · exact resolveReq_not_pending _ _ _ hnone1
  · exact rejectReq_not_pending _ _ _ hnone1
  · rw [hst2]
    exact List.mem_append_right _ (List.mem_singleton.mpr rfl)
  · exact resolveReq_not_pending _ _ _ hnone2
  · exact rejectReq_not_pending _ _ _ hnone2

/-- Witness for C5: a correlator with one pending request (identifier `0` for
a rename).  One run resolves it first, another rejects it first with
`RequestTimeout`; in both runs the slot is removed and the redundant
re-resolution and re-rejection are ignored. -/
theorem pending_slot_single_resolution_witness :
    ((resolveReq ⟨1, [(0, ⟨"rename_symbol"⟩)], []⟩ 0 JsonVal.null).pending.find?
        (fun p => p.1 == 0) = none)
  ∧ ((0, Except.ok JsonVal.null)
      ∈ (resolveReq ⟨1, [(0, ⟨"rename_symbol"⟩)], []⟩ 0 JsonVal.null).delivered)
  ∧ (resolveReq (resolveReq ⟨1, [(0, ⟨"rename_symbol"⟩)], []⟩ 0 JsonVal.null) 0
        (JsonVal.str "late") = resolveReq ⟨1, [(0, ⟨"rename_symbol"⟩)], []⟩ 0 JsonVal.null)
  ∧ (rejectReq (resolveReq ⟨1, [(0, ⟨"rename_symbol"⟩)], []⟩ 0 JsonVal.null) 0
        SessionError.RequestTimeout
      = resolveReq ⟨1, [(0, ⟨"rename_symbol"⟩)], []⟩ 0 JsonVal.null)
  ∧ ((rejectReq ⟨1, [(0, ⟨"rename_symbol"⟩)], []⟩ 0
        SessionError.RequestTimeout).pending.find? (fun p => p.1 == 0) = none)
  ∧ ((0, Except.error SessionError.RequestTimeout)
      ∈ (rejectReq ⟨1, [(0, ⟨"rename_symbol"⟩)], []⟩ 0
          SessionError.RequestTimeout).delivered)
  ∧ (resolveReq (rejectReq ⟨1, [(0, ⟨"rename_symbol"⟩)], []⟩ 0
        SessionError.RequestTimeout) 0 (JsonVal.str "late")
      = rejectReq ⟨1, [(0, ⟨"rename_symbol"⟩)], []⟩ 0 SessionError.RequestTimeout)
  ∧ (rejectReq (rejectReq ⟨1, [(0, ⟨"rename_symbol"⟩)], []⟩ 0
        SessionError.RequestTimeout) 0 SessionError.SessionTerminated
      = rejectReq ⟨1, [(0, ⟨"rename_symbol"⟩)], []⟩ 0 SessionError.RequestTimeout) :=
  pending_slot_single_resolution ⟨1, [(0, ⟨"rename_symbol"⟩)], []⟩ 0
    ⟨"rename_symbol"⟩ JsonVal.null (JsonVal.str "late") SessionError.RequestTimeout
    SessionError.SessionTerminated rfl

/-- Claim C6: a Response whose identifier matches no pending request is
discarded: dispatching it leaves the entire correlator state (pending map and
delivered results) unchanged. -/
theorem unmatched_response_ignored (st : Correlator) (id : Nat)
    (r : Except SessionError JsonVal)
    (h : st.pending.find? (fun p => p.1 == id) = none) :
    handleResponse st id r = st := by
  cases r with
  | ok v => exact resolveReq_not_pending st id v h
  | error e => exact rejectReq_not_pending st id e h

/-- Witness for C6: a correlator with identifier `1` pending receives a
response for identifier `2`; nothing changes. -/
theorem unmatched_response_ignored_witness :
    handleResponse ⟨3, [(1, ⟨"find_definition"⟩)], []⟩ 2 (Except.ok JsonVal.null)
      = ⟨3, [(1, ⟨"find_definition"⟩)], []⟩ :=
  unmatched_response_ignored ⟨3, [(1, ⟨"find_definition"⟩)], []⟩ 2
    (Except.ok JsonVal.null) rfl

/-- Claim C7: on unexpected process exit, every pending request is failed with
`SessionTerminated` (delivered as its result, with the pending map emptied) and
the Session transitions to `Failed`; while `Failed`, every submitted command
fails with `SessionTerminated` and leaves the Session `Failed` (so the failure
persists across any sequence of submissions), and only an explicit restart
returns the Session to `Ready`. -/
theorem process_exit_terminates_session (s : SessionModel)
    (registry : List CommandDescriptor) (name : String)
    (args : List (String × JsonVal)) (id : Nat) (slot : PendingSlot)
    (hmem : (id, slot) ∈ s.correlator.pending) :
    ((onProcessExit s).status = InitStatus.Failed)
  ∧ ((onProcessExit s).correlator.pending = [])
  ∧ ((id, Except.error SessionError.SessionTerminated)
      ∈ (onProcessExit s).correlator.delivered)
  ∧ (∀ s2 : SessionModel, s2.status = InitStatus.Failed →
        (submitCommand registry s2 name args).1
            = (Except.error SessionError.SessionTerminated, [])
        ∧ (submitCommand registry s2 name args).2.status = InitStatus.Failed)
  ∧ ((restartSession (onProcessExit s)).status = InitStatus.Ready) := by
  refine ⟨rfl, rfl, ?_, ?_, rfl⟩
  · exact List.mem_append_right _
      (List.mem_map.mpr ⟨(id, slot), hmem, rfl⟩)
  · intro s2 h2
    constructor <;> simp [submitCommand, h2]

/-- Witness for C7: a `Ready` session with one pending `run_cargo_check`
request whose process exits. -/
theorem process_exit_terminates_session_witness :
    ((onProcessExit ⟨InitStatus.Ready, ⟨1, [(0, ⟨"run_cargo_check"⟩)], []⟩⟩).status
        = InitStatus.Failed)
  ∧ ((onProcessExit ⟨InitStatus.Ready, ⟨1, [(0, ⟨"run_cargo_check"⟩)], []⟩⟩).correlator.pending
        = [])
  ∧ ((0, Except.error SessionError.SessionTerminated)
      ∈ (onProcessExit
          ⟨InitStatus.Ready, ⟨1, [(0, ⟨"run_cargo_check"⟩)], []⟩⟩).correlator.delivered)
  ∧ (∀ s2 : SessionModel, s2.status = InitStatus.Failed →
        (submitCommand [] s2 "get_diagnostics" []).1
            = (Except.error SessionError.SessionTerminated, [])
        ∧ (submitCommand [] s2 "get_diagnostics" []).2.status = InitStatus.Failed)
  ∧ ((restartSession
        (onProcessExit ⟨InitStatus.Ready, ⟨1, [(0, ⟨"run_cargo_check"⟩)], []⟩⟩)).status
        = InitStatus.Ready) :=
  process_exit_terminates_session
    ⟨InitStatus.Ready, ⟨1, [(0, ⟨"run_cargo_check"⟩)], []⟩⟩ [] "get_diagnostics" []
    0 ⟨"run_cargo_check"⟩ (List.mem_singleton.mpr rfl)

/-- Claim C8: for a file path with no diagnostics notification received yet
(no cache entry), `diagnosticsFor(path)` is a successful empty diagnostics
result, not an error. -/
theorem diagnostics_empty_before_any_notification
    (cache : List (String × List JsonVal)) (path : String)
    (h : cache.find? (fun p => p.1 == path) = none) :
    diagnosticsFor cache path = Except.ok [] := by
  unfold diagnosticsFor
  rw [h]
  rfl

/-- Witness for C8: an empty diagnostics cache queried for `src/lib.rs`. -/
theorem diagnostics_empty_before_any_notification_witness :
    diagnosticsFor [] "src/lib.rs" = Except.ok [] :=
  diagnostics_empty_before_any_notification [] "src/lib.rs" rfl

/-- Updating every entry keyed `path` to `(path, c)` keeps `path` findable:
if a search for `path` succeeded before the update, it now returns
`(path, c)`. -/
theorem find?_map_update (path c : String) (l : List (String × String))
    (q : String × String) (h : l.find? (fun p => p.1 == path) = some q) :
    (l.map (fun p => if p.1 == path then (path, c) else p)).find?
        (fun p => p.1 == path) = some (path, c) := by
  induction l with
  | nil => simp at h
  | cons a l ih =>
      cases ha : (a.1 == path) with
      | true =>
          rw [List.map_cons]
          simp [List.find?_cons, ha]
      | false =>
          simp only [List.find?_cons, ha] at h
          rw [List.map_cons]
          simp only [List.find?_cons, ha, Bool.false_eq_true, if_false]
          exact ih h

/-- After `ensureOpen docs path c`, the document table maps `path` to the
content `c` just observed. -/
theorem ensureOpen_find_self (docs : List (String × String)) (path c : String) :
    ((ensureOpen docs path c).1).find? (fun p => p.1 == path) = some (path, c) := by
  unfold ensureOpen
  cases hfind : docs.find? (fun p => p.1 == path) with
  | none => simp [List.find?_cons]
  | some q =>
      obtain ⟨q1, q2⟩ := q
      dsimp only
      have hq1 : q1 = path := by
        have h2 := List.find?_some hfind
        simpa using h2
      by_cases hc : ((q1, q2).2 == c) = true
      · rw [if_pos hc, hfind]
        have hq2 : q2 = c := by simpa using hc
        rw [hq1, hq2]
      · rw [if_neg hc]
        exact find?_map_update path c docs (q1, q2) hfind

/-- `ensureOpen` on a document already open with the current content changes
nothing and sends nothing. -/
theorem ensureOpen_already_current (docs : List (String × String))
    (path c : String)
    (h : docs.find? (fun p => p.1 == path) = some (path, c)) :
    ensureOpen docs path c = (docs, []) := by
  unfold ensureOpen
  rw [h]
  simp

/-- One `ensureOpen` call sends at most one "document opened" notification. -/
theorem countOpened_ensureOpen_le_one (docs : List (String × String))
    (path c : String) : countOpened (ensureOpen docs path c).2 ≤ 1 := by
  unfold ensureOpen
  cases docs.find? (fun p => p.1 == path) with
  | none => simp [countOpened]
  | some q =>
      by_cases hc : (q.2 == c) = true <;> simp [hc, countOpened]

/-- Claim C9: `ensureOpen` is idempotent on the wire.  Two consecutive
`ensureOpen(path)` calls observing the same on-disk content send at most one
"document opened" notification in total — the second call sends nothing at
all — and a call on an open document whose on-disk content has changed since
last observed sends exactly one "document changed" notification carrying the
new content. -/
theorem ensureOpen_wire_idempotent (docs : List (String × String))
    (path c c0 : String) :
    (countOpened ((ensureOpen docs path c).2
        ++ (ensureOpen (ensureOpen docs path c).1 path c).2) ≤ 1)
  ∧ ((ensureOpen (ensureOpen docs path c).1 path c).2 = [])
  ∧ (docs.find? (fun p => p.1 == path) = some (path, c0) → c0 ≠ c →
      (ensureOpen docs path c).2 = [DocNotification.changed path c]) := by
  have h2 : ensureOpen (ensureOpen docs path c).1 path c
      = ((ensureOpen docs path c).1, []) :=
    ensureOpen_already_current _ _ _ (ensureOpen_find_self docs path c)
  refine ⟨?_, ?_, ?_⟩
  · rw [h2]
    simpa using countOpened_ensureOpen_le_one docs path c
  · rw [h2]
  · intro hfind hne
    have hcc : (c0 == c) = false := by
      simp [hne]
    unfold ensureOpen
    rw [hfind]
    simp [hcc]

/-- Witness for C9: a table where `src/lib.rs` was last observed with content
`"a"` and the on-disk content is now `"b"`: exactly one "document changed"
notification with the new content is sent. -/
theorem ensureOpen_wire_idempotent_witness :
    (ensureOpen [("src/lib.rs", "a")] "src/lib.rs" "b").2
      = [DocNotification.changed "src/lib.rs" "b"] :=
  (ensureOpen_wire_idempotent [("src/lib.rs", "a")] "src/lib.rs" "b" "a").2.2
    rfl (by decide)

end RustMcp
